import Mathlib

/-!
Verification development for the session/transfer engine of
`src/backend/service.py` (simpleshell backend).

The Python module keeps two global dictionaries guarded by `sessions_lock`
(`ssh_sessions : session_id → SSHSession`, `client_sessions : client_id →
set of session ids`), a global `TransferManager`, and socket.io event
handlers (`open_ssh`, `ssh_input`, `close_ssh`, `resize`) plus HTTP routes
for SFTP transfers.  Dictionaries are embedded as association lists with
dictionary semantics (assignment overwrites, `pop` deletes); wall-clock
time (`time.time()`) is passed explicitly as a rational; socket.io
emissions and channel writes are collected as explicit event/write lists.
-/

section AssocHelpers

variable {α : Type}

/-- Dictionary lookup on an association list (Python `d.get(k)` / `d[k]`). -/
def alookup (l : List (String × α)) (k : String) : Option α :=
  match l with
  | [] => none
  | (k', v) :: rest => if k' = k then some v else alookup rest k

/-- Dictionary deletion (`del d[k]` / `d.pop(k, None)`). -/
def aerase (l : List (String × α)) (k : String) : List (String × α) :=
  l.filter (fun p => p.1 ≠ k)

/-- Dictionary assignment `d[k] = v`: the new binding replaces any old one. -/
def ainsert (l : List (String × α)) (k : String) (v : α) : List (String × α) :=
  (k, v) :: aerase l k

end AssocHelpers

/-- One interactive SSH session as stored in `ssh_sessions`
(class `SSHSession`, service.py:111-119).  The paramiko client and channel
objects are abstracted to numeric handles; the read thread handle is
tracked by the caller (`OpenResult.spawned`). -/
structure SSHSession where
  client_id : String
  active : Bool
  conn : Nat
  chan : Nat
  deriving Repr, DecidableEq

/-- The globals of service.py that the session handlers mutate:
`ssh_sessions`, `client_sessions` (service.py:122-123), plus ledgers of
which channel/connection handles have had `.close()` called on them (so
that "the channel is not closed" is expressible). -/
structure ServerState where
  ssh_sessions : List (String × SSHSession)
  client_sessions : List (String × List String)
  closed_chans : List Nat
  closed_conns : List Nat
  deriving Repr, DecidableEq

/-- Events emitted via `socketio.emit` and protocol-level channel sends. -/
inductive Event where
  | sshConnected (session_id : String)
  | sshClosed (session_id : String) (message : String)
  | sshError (session_id : String) (error : String) (kind : String)
  | sshOutput (session_id : String) (bytes : List Nat)
  | keepalive (session_id : String)
  deriving Repr, DecidableEq

/-- Number of `ssh_closed` events for `sid` in an emission trace. -/
def countClosed (sid : String) (evs : List Event) : Nat :=
  evs.countP (fun e =>
    match e with
    | Event.sshClosed s _ => s == sid
    | _ => false)

/-- Outcome of `create_ssh_client(data)` (service.py:297-342): either a
fresh connection/channel pair or one of the three error classes that
`handle_ssh_connection` distinguishes (service.py:442-462). -/
inductive ConnectOutcome where
  | ok (conn chan : Nat)
  | networkError (msg : String)
  | authError
  | otherError (msg : String)
  deriving Repr, DecidableEq

/-- Result of the `open_ssh` handler: new global state, emitted events, and
the session ids whose `read_output` thread was started. -/
structure OpenResult where
  state : ServerState
  events : List Event
  spawned : List String
  deriving Repr, DecidableEq

/-- `handle_ssh_connection` (service.py:432-513).  Note: the handler never
checks whether `session_id` is already present in `ssh_sessions`; on a
successful connect it assigns `ssh_sessions[session_id] = session`
unconditionally (service.py:477-481), adds the id to the requesting
client's set, starts the read thread and emits `ssh_connected`. -/
def handle_ssh_connection (st : ServerState) (client_id session_id : String)
    (outcome : ConnectOutcome) : OpenResult :=
  match outcome with
  | .networkError msg =>
      ⟨st, [.sshError session_id ("Network Connection Failed: " ++ msg) "network"], []⟩
  | .authError =>
      ⟨st, [.sshError session_id "Authentication Failed: Invalid username, password or key" "auth"], []⟩
  | .otherError msg =>
      ⟨st, [.sshError session_id ("Connection failed: " ++ msg) "unknown"], []⟩
  | .ok conn chan =>
      let session : SSHSession := ⟨client_id, true, conn, chan⟩
      let sessions' := ainsert st.ssh_sessions session_id session
      let clientSet := (alookup st.client_sessions client_id).getD []
      let clientSet' := if session_id ∈ clientSet then clientSet else clientSet ++ [session_id]
      ⟨{ st with
          ssh_sessions := sessions',
          client_sessions := ainsert st.client_sessions client_id clientSet' },
        [.sshConnected session_id], [session_id]⟩

/-- `handle_ssh_close` (service.py:561-598).  Ownership is verified; on a
mismatch or a missing session the handler only prints a log line — no
event is emitted and no state is touched.  On the owner path the session
is marked inactive, its channel and client are closed (best-effort), the
entry is deleted from both tables, and one `ssh_closed` is emitted. -/
def handle_ssh_close (st : ServerState) (client_id session_id : String) :
    ServerState × List Event :=
  match alookup st.ssh_sessions session_id with
  | some session =>
      if session.client_id = client_id then
        ({ st with
            ssh_sessions := aerase st.ssh_sessions session_id,
            client_sessions :=
              match alookup st.client_sessions client_id with
              | some l => ainsert st.client_sessions client_id (l.filter (· ≠ session_id))
              | none => st.client_sessions,
            closed_chans := st.closed_chans ++ [session.chan],
            closed_conns := st.closed_conns ++ [session.conn] },
          [.sshClosed session_id "Connection closed"])
      else
        (st, [])
  | none => (st, [])

/-- Result of the `ssh_input` handler: either an `ssh_error` emission with
no channel I/O, or the ordered list of strings written to the channel. -/
inductive InputResult where
  | error (msg : String)
  | sent (writes : List String)
  deriving Repr, DecidableEq

/-- `handle_ssh_input` (service.py:515-559).  Requires the session to
exist, be active and be owned by the caller; pasted input is sent verbatim
followed by a newline unless it is the last line, non-pasted input is sent
verbatim with nothing appended (service.py:541-550). -/
def handle_ssh_input (st : ServerState) (client_id session_id input_data : String)
    (isPasted isLastLine : Bool) : InputResult :=
  match alookup st.ssh_sessions session_id with
  | none => .error "Session not found or inactive"
  | some session =>
      if session.active = false then .error "Session not found or inactive"
      else if session.client_id ≠ client_id then .error "Session belongs to another client"
      else if isPasted then
        if isLastLine = false then .sent [input_data, "\n"] else .sent [input_data]
      else .sent [input_data]

/-- Effect of a successful `resize`: the size handed to
`channel.resize_pty` and the variables handed to
`channel.update_environment`. -/
structure ResizeEffect where
  applied : Int × Int
  env : List (String × String)
  deriving Repr, DecidableEq

set_option linter.unusedVariables false in
/-- `handle_resize` (service.py:600-628).  The handler reads only
`data['session_id']`, `data['cols']`, `data['rows']`; it never consults
`request.sid`, so the `caller` argument is unused exactly as in the
source.  A falsy or unknown session id returns silently (`none`): no
event, no error.  Otherwise columns are clamped to [80,500] and rows to
[24,200] and both the pty size and COLUMNS/LINES are updated. -/
def handle_resize (caller : String) (st : ServerState) (session_id : String)
    (cols rows : Int) : Option ResizeEffect :=
  if session_id = "" then none
  else
    match alookup st.ssh_sessions session_id with
    | none => none
    | some _ =>
        let c := max 80 (min cols 500)
        let r := max 24 (min rows 200)
        some ⟨(c, r), [("COLUMNS", toString c), ("LINES", toString r)]⟩

/-!  ## OutputPump (`read_output`, service.py:361-430)

One background thread per session.  Each loop iteration first re-reads the
shared registry under `sessions_lock` and exits if the session is gone or
inactive; then it either receives available bytes (decoding with
`errors='ignore'`, which never raises, so the local buffer is cleared and
one `ssh_output` is emitted per non-empty read) or, when idle past 60
seconds, sends a single NUL keepalive; after the body it exits if the
channel or transport is closed.  Any read exception exits the loop.  The
`finally` block marks the session inactive (when still registered) and
emits exactly one `ssh_closed` (service.py:422-430).

The environment of one iteration is the registry contents observed at the
top of the loop, the channel behaviour during the body, and the result of
the channel-closed check after the body.  A run is modelled on a finite
schedule of such environments; `none` means the schedule ended with the
loop still spinning (the thread has not terminated yet).  -/

/-- Channel behaviour during one pump iteration: `recv now data` models
`recv_ready()` true and `channel.recv(1024) == data` at wall-clock `now`;
`noData now sendOk` models `recv_ready()` false (with `sendOk` the success
of a keepalive send, should one be due); `recvError` models an exception
raised while reading. -/
inductive PumpStep where
  | recv (now : ℚ) (data : List Nat)
  | noData (now : ℚ) (sendOk : Bool)
  | recvError
  deriving Repr, DecidableEq

/-- Environment of one `read_output` loop iteration. -/
structure PumpIterEnv where
  st : ServerState
  step : PumpStep
  closedAfter : Bool
  deriving Repr, DecidableEq

/-- The `while True` loop of `read_output` (service.py:367-418), returning
the `ssh_output`/keepalive emissions of a run that exits the loop within
the given schedule, or `none` if the schedule is exhausted first. -/
def pump_loop (sid : String) : ℚ → List Nat → List PumpIterEnv → Option (List Event)
  | _, _, [] => none
  | last_activity, buffer, env :: rest =>
      match alookup env.st.ssh_sessions sid with
      | none => some []
      | some s =>
          if s.active = false then some []
          else
            match env.step with
            | .recv now data =>
                if data = [] then
                  if env.closedAfter then some []
                  else pump_loop sid last_activity buffer rest
                else
                  let ev := Event.sshOutput sid (buffer ++ data)
                  if env.closedAfter then some [ev]
                  else (pump_loop sid now [] rest).map (ev :: ·)
            | .noData now sendOk =>
                if now - last_activity > 60 then
                  if sendOk then
                    let ev := Event.keepalive sid
                    if env.closedAfter then some [ev]
                    else (pump_loop sid now buffer rest).map (ev :: ·)
                  else some []
                else
                  if env.closedAfter then some []
                  else pump_loop sid last_activity buffer rest
            | .recvError => some []

/-- The `finally` block of `read_output` (service.py:422-430): mark the
session inactive when still registered, and emit one `ssh_closed`. -/
def read_output_finalize (st : ServerState) (sid : String) : ServerState × Event :=
  (match alookup st.ssh_sessions sid with
   | some s => { st with ssh_sessions := ainsert st.ssh_sessions sid { s with active := false } }
   | none => st,
   Event.sshClosed sid "Connection closed")

/-- Full emission trace of a terminated `read_output` run: the loop's
output/keepalive events followed by the single `ssh_closed` from the
`finally` block. -/
def read_output_events (sid : String) (last_activity : ℚ)
    (envs : List PumpIterEnv) : Option (List Event) :=
  (pump_loop sid last_activity [] envs).map (· ++ [Event.sshClosed sid "Connection closed"])

/-!  ## TransferProgress (service.py:665-768) -/

/-- Per-transfer progress tracker (`class TransferProgress`).  Byte counts
are naturals (callers report file sizes); wall-clock instants and derived
rates are rationals.  `cancelled` models the `threading.Event`. -/
structure TransferProgress where
  total_size : Nat
  current_size : Nat
  start_time : ℚ
  operation : String
  last_update_time : ℚ
  last_size : Nat
  speed_samples : List ℚ
  speed : ℚ
  progress : ℚ
  estimated_time : ℚ
  status : String
  cancelled : Bool
  deriving Repr, DecidableEq

/-- `TransferProgress.__init__` (service.py:666-681) at wall-clock `now`. -/
def TransferProgress.init (total_size : Nat) (operation : String) (now : ℚ) :
    TransferProgress :=
  { total_size := total_size, current_size := 0, start_time := now,
    operation := operation, last_update_time := now, last_size := 0,
    speed_samples := [], speed := 0, progress := 0, estimated_time := 0,
    status := "normal", cancelled := false }

/-- `TransferProgress.update(bytes_transferred)` (service.py:683-713) at
wall-clock `now`.  `current_size` is always overwritten; the speed,
progress and ETA fields are recomputed only when time advanced since the
last recorded update (`time_diff > 0`). -/
def TransferProgress.update (p : TransferProgress) (bytes_transferred : Nat)
    (now : ℚ) : TransferProgress :=
  let p1 := { p with current_size := bytes_transferred }
  let time_diff := now - p1.last_update_time
  if time_diff > 0 then
    let size_diff : ℚ := (bytes_transferred : ℚ) - (p1.last_size : ℚ)
    let instant_speed := size_diff / time_diff
    let appended := p1.speed_samples ++ [instant_speed]
    let samples := if appended.length > 5 then appended.drop 1 else appended
    let speed := samples.sum / (samples.length : ℚ)
    let progress : ℚ :=
      if p1.total_size > 0 then
        min 100 (((p1.current_size : ℚ) / (p1.total_size : ℚ)) * 100)
      else 0
    let remaining : ℚ := max 0 ((p1.total_size : ℚ) - (p1.current_size : ℚ))
    let estimated := if speed > 0 then remaining / speed else 0
    { p1 with speed_samples := samples, speed := speed, progress := progress,
              estimated_time := estimated, last_update_time := now,
              last_size := p1.current_size }
  else p1

/-- `TransferProgress.cancel` (service.py:715-719). -/
def TransferProgress.cancel (p : TransferProgress) : TransferProgress :=
  { p with status := "cancelled", cancelled := true }

/-- `TransferProgress.is_cancelled` (service.py:721-723). -/
def TransferProgress.is_cancelled (p : TransferProgress) : Bool :=
  p.cancelled

/-!  ## TransferManager (service.py:771-806) -/

/-- `class TransferManager`: transfer registry plus the parallel
cancellation-flag dictionary `_cancel_flags`. -/
structure TransferManager where
  transfers : List (String × TransferProgress)
  cancel_flags : List (String × Bool)
  deriving Repr, DecidableEq

/-- `TransferManager()` with both dictionaries empty. -/
def TransferManager.empty : TransferManager := ⟨[], []⟩

/-- `cancel_transfer` (service.py:777-785): flags both the progress object
and the side table, but only when a live transfer is registered. -/
def TransferManager.cancel_transfer (m : TransferManager) (transfer_id : String) :
    TransferManager × Bool :=
  match alookup m.transfers transfer_id with
  | some t =>
      (⟨ainsert m.transfers transfer_id t.cancel,
        ainsert m.cancel_flags transfer_id true⟩, true)
  | none => (m, false)

/-- `is_cancelled` (service.py:787-790): `self._cancel_flags.get(transfer_id, False)`. -/
def TransferManager.is_cancelled (m : TransferManager) (transfer_id : String) : Bool :=
  (alookup m.cancel_flags transfer_id).getD false

/-- `create_transfer` (service.py:792-797): unconditionally installs a
fresh `TransferProgress` and resets the cancellation flag to `False`. -/
def TransferManager.create_transfer (m : TransferManager) (transfer_id : String)
    (total_size : Nat) (operation : String) (now : ℚ) :
    TransferManager × TransferProgress :=
  let progress := TransferProgress.init total_size operation now
  (⟨ainsert m.transfers transfer_id progress,
    ainsert m.cancel_flags transfer_id false⟩, progress)

/-- `get_transfer` (service.py:799-801). -/
def TransferManager.get_transfer (m : TransferManager) (transfer_id : String) :
    Option TransferProgress :=
  alookup m.transfers transfer_id

/-- `remove_transfer` (service.py:803-806): pops the progress entry AND
the cancellation flag (`self._cancel_flags.pop(transfer_id, None)`). -/
def TransferManager.remove_transfer (m : TransferManager) (transfer_id : String) :
    TransferManager :=
  ⟨aerase m.transfers transfer_id, aerase m.cancel_flags transfer_id⟩

/-!  ## OptimizedFileTransfer (service.py:812-837) and upload chunk 0 -/

/-- `_calculate_buffer_size` (service.py:821-828). -/
def calculate_buffer_size (file_size : Nat) : Nat :=
  if file_size > 1024 * 1024 * 1024 then 16 * 1024 * 1024
  else if file_size > 100 * 1024 * 1024 then 8 * 1024 * 1024
  else 1 * 1024 * 1024

/-- `_calculate_chunk_size` (service.py:830-837). -/
def calculate_chunk_size (file_size : Nat) : Nat :=
  if file_size > 1024 * 1024 * 1024 then 4 * 1024 * 1024
  else if file_size > 100 * 1024 * 1024 then 2 * 1024 * 1024
  else 1 * 1024 * 1024

/-- `class OptimizedFileTransfer` (service.py:812-819). -/
structure OptimizedFileTransfer where
  transfer_id : Option String
  total_size : Nat
  buffer_size : Nat
  chunk_size : Nat
  use_parallel : Bool
  deriving Repr, DecidableEq

/-- `OptimizedFileTransfer.__init__` (service.py:813-819). -/
def OptimizedFileTransfer.make (transfer_id : Option String) (total_size : Nat) :
    OptimizedFileTransfer :=
  ⟨transfer_id, total_size,
   calculate_buffer_size total_size, calculate_chunk_size total_size,
   decide (total_size > 100 * 1024 * 1024)⟩

/-- The transfer object built by `upload_file` (service.py:859):
`OptimizedFileTransfer(transfer_id, total_size)`. -/
def upload_transfer_config (transfer_id : Option String) (total_size : Nat) :
    OptimizedFileTransfer :=
  OptimizedFileTransfer.make transfer_id total_size

/-- The transfer object built by `download_file` (service.py:1025):
`OptimizedFileTransfer(transfer_id, file_size)`. -/
def download_transfer_config (transfer_id : Option String) (file_size : Nat) :
    OptimizedFileTransfer :=
  OptimizedFileTransfer.make transfer_id file_size

/-- Progress-tracker selection in `upload_file` (service.py:862-865):
chunk 0 calls `create_transfer`, later chunks call `get_transfer`. -/
def upload_select_progress (m : TransferManager) (transfer_id : String)
    (chunk_index : Nat) (total_size : Nat) (now : ℚ) :
    TransferManager × Option TransferProgress :=
  if chunk_index = 0 then
    let r := m.create_transfer transfer_id total_size "upload" now
    (r.1, some r.2)
  else (m, m.get_transfer transfer_id)

/-!  ## Derived notions used by the theorems -/

/-- The progress-percentage expression of `TransferProgress.update`
(service.py:705): `min(100, current/total*100)` guarded against a zero
total. -/
def progressFormula (total current : Nat) : ℚ :=
  if 0 < total then min 100 (((current : ℚ) / (total : ℚ)) * 100) else 0

/-- A sequence of `update(bytes, now)` calls applied in order. -/
def runUpdates (p : TransferProgress) : List (Nat × ℚ) → TransferProgress
  | [] => p
  | (b, t) :: rest => runUpdates (p.update b t) rest

/-- The wall-clock instants of an update sequence strictly increase,
starting strictly after `t0`. -/
def timesIncreasing : ℚ → List (Nat × ℚ) → Prop
  | _, [] => True
  | t0, (_, t) :: rest => t0 < t ∧ timesIncreasing t rest

/-- A demonstration registry: one active session `"s"` owned by client
`"c1"`, with connection handle 1 and channel handle 2. -/
def demoSession : SSHSession := ⟨"c1", true, 1, 2⟩

/-- Server state holding just `demoSession` under id `"s"`. -/
def demoState : ServerState := ⟨[("s", demoSession)], [("c1", ["s"])], [], []⟩

/-!  ## Dictionary lemmas -/

theorem alookup_ainsert {α : Type} (l : List (String × α)) (k : String) (v : α) :
    alookup (ainsert l k v) k = some v := by
  simp [ainsert, alookup]

theorem alookup_aerase {α : Type} (l : List (String × α)) (k : String) :
    alookup (aerase l k) k = none := by
  induction l with
  | nil => rfl
  | cons p rest ih =>
    by_cases h : p.1 = k
    · simpa [aerase, alookup, h] using ih
    · simpa [aerase, alookup, h] using ih

/-!  ## C4 — cancellation flag after `remove_transfer` -/

/-- C4 counterexample.  The claim says the cancellation-flag side table
still records a transfer as cancelled after `remove_transfer`; but
`remove_transfer` (service.py:803-806) pops `_cancel_flags[transfer_id]`
too, so for the concrete transfer `"t1"` that was created, cancelled, and
removed, `is_cancelled` returns `false`, not `true`. -/
theorem remove_transfer_forgets_cancellation_cex :
    (((TransferManager.empty.create_transfer "t1" 100 "upload" 0).1.cancel_transfer
        "t1").1.is_cancelled "t1") = true
    ∧ ((((TransferManager.empty.create_transfer "t1" 100 "upload" 0).1.cancel_transfer
        "t1").1.remove_transfer "t1").is_cancelled "t1") = false := by
  constructor
  · rfl
  · rfl

/-- C4 amended: `remove_transfer` deletes the cancellation flag along with
the progress entry, so after removal `is_cancelled` reports `false` for
every manager state and transfer id — a late-arriving chunk of an
already-cancelled transfer is NOT recognized as cancelled. -/
theorem is_cancelled_false_after_remove (m : TransferManager) (transfer_id : String) :
    (m.remove_transfer transfer_id).is_cancelled transfer_id = false := by
  simp [TransferManager.remove_transfer, TransferManager.is_cancelled, alookup_aerase]

/-!  ## C8 — buffer/chunk sizing policy -/

/-- C8: the transfer buffer and chunk sizes follow the sizing table
(buffer 16 MiB / chunk 4 MiB above 1 GiB; 8 MiB / 2 MiB above 100 MiB up
to 1 GiB; 1 MiB / 1 MiB otherwise), and upload and download build their
`OptimizedFileTransfer` through the same constructor, hence the same
sizing function. -/
theorem transfer_sizing_policy (tid : Option String) (s : Nat) :
    (1024 * 1024 * 1024 < s →
      (OptimizedFileTransfer.make tid s).buffer_size = 16 * 1024 * 1024
      ∧ (OptimizedFileTransfer.make tid s).chunk_size = 4 * 1024 * 1024)
    ∧ (100 * 1024 * 1024 < s ∧ s ≤ 1024 * 1024 * 1024 →
      (OptimizedFileTransfer.make tid s).buffer_size = 8 * 1024 * 1024
      ∧ (OptimizedFileTransfer.make tid s).chunk_size = 2 * 1024 * 1024)
    ∧ (s ≤ 100 * 1024 * 1024 →
      (OptimizedFileTransfer.make tid s).buffer_size = 1024 * 1024
      ∧ (OptimizedFileTransfer.make tid s).chunk_size = 1024 * 1024)
    ∧ upload_transfer_config tid s = download_transfer_config tid s := by
  refine ⟨?_, ?_, ?_, rfl⟩ <;>
    intro h <;>
    constructor <;>
    simp only [OptimizedFileTransfer.make, calculate_buffer_size, calculate_chunk_size] <;>
    split <;>
    first
      | rfl
      | (split <;> first | rfl | omega)
      | omega

/-- Witness for C8 at the three concrete sizes 2 GiB, 200 MiB and 1000 B. -/
theorem transfer_sizing_policy_witness :
    (OptimizedFileTransfer.make none (2 * 1024 * 1024 * 1024)).buffer_size = 16 * 1024 * 1024
    ∧ (OptimizedFileTransfer.make none (200 * 1024 * 1024)).buffer_size = 8 * 1024 * 1024
    ∧ (OptimizedFileTransfer.make none (200 * 1024 * 1024)).chunk_size = 2 * 1024 * 1024
    ∧ (OptimizedFileTransfer.make none 1000).chunk_size = 1024 * 1024 :=
  ⟨((transfer_sizing_policy none _).1 (by norm_num)).1,
   ((transfer_sizing_policy none _).2.1 ⟨by norm_num, by norm_num⟩).1,
   ((transfer_sizing_policy none _).2.1 ⟨by norm_num, by norm_num⟩).2,
   ((transfer_sizing_policy none _).2.2.1 (by norm_num)).2⟩

/-!  ## C9 — `create_transfer` resets cancellation -/

set_option linter.unusedVariables false in
/-- C9: for every prior manager state — in particular one where
`transfer_id` is flagged cancelled — `create_transfer` installs a fresh
`TransferProgress` with status `"normal"` and an unset cancellation event,
and resets the side-table flag to `false`; consequently a chunk with
`chunk_index == 0` for a previously cancelled id restarts the transfer as
uncancelled (service.py:792-797, 861-868). -/
theorem create_transfer_resets_cancellation (m : TransferManager)
    (transfer_id : String) (total_size : Nat) (now : ℚ)
    (h : m.is_cancelled transfer_id = true) :
    ((m.create_transfer transfer_id total_size "upload" now).1.get_transfer transfer_id
        = some (TransferProgress.init total_size "upload" now))
    ∧ (TransferProgress.init total_size "upload" now).status = "normal"
    ∧ (TransferProgress.init total_size "upload" now).is_cancelled = false
    ∧ (m.create_transfer transfer_id total_size "upload" now).1.is_cancelled transfer_id = false
    ∧ (upload_select_progress m transfer_id 0 total_size now).2
        = some (TransferProgress.init total_size "upload" now)
    ∧ (upload_select_progress m transfer_id 0 total_size now).1.is_cancelled transfer_id
        = false := by
  refine ⟨?_, rfl, rfl, ?_, ?_, ?_⟩ <;>
    simp [TransferManager.create_transfer, TransferManager.get_transfer,
      TransferManager.is_cancelled, upload_select_progress, alookup_ainsert]

/-- Witness for C9: a manager whose transfer `"t"` is cancelled. -/
theorem create_transfer_resets_cancellation_witness :
    ((TransferManager.empty.create_transfer "t" 5 "upload" 0).1.cancel_transfer
        "t").1.is_cancelled "t" = true
    ∧ ((((TransferManager.empty.create_transfer "t" 5 "upload" 0).1.cancel_transfer
        "t").1.create_transfer "t" 7 "upload" 1).1.is_cancelled "t" = false) :=
  ⟨rfl,
   (create_transfer_resets_cancellation
      ((TransferManager.empty.create_transfer "t" 5 "upload" 0).1.cancel_transfer "t").1
      "t" 7 1 rfl).2.2.2.1⟩

/-!  ## C5 — progress snapshot invariants -/

/-- When time advanced since the last recorded update, `update` recomputes
the stored percentage from the new byte count via `progressFormula`, and
it never touches the total. -/
theorem TransferProgress.update_advance (p : TransferProgress) (b : Nat) (now : ℚ)
    (h : p.last_update_time < now) :
    (p.update b now).progress = progressFormula p.total_size b
    ∧ (p.update b now).total_size = p.total_size
    ∧ (p.update b now).last_update_time = now
    ∧ (p.update b now).current_size = b := by
  unfold TransferProgress.update
  rw [if_pos (by simpa using sub_pos.mpr h)]
  simp [progressFormula]

theorem progressFormula_nonneg (total current : Nat) :
    0 ≤ progressFormula total current := by
  unfold progressFormula
  split
  · exact le_min (by norm_num) (by positivity)
  · exact le_refl 0

theorem progressFormula_le_hundred (total current : Nat) :
    progressFormula total current ≤ 100 := by
  unfold progressFormula
  split
  · exact min_le_left _ _
  · norm_num

theorem progressFormula_zero (total : Nat) : progressFormula total 0 = 0 := by
  unfold progressFormula
  split <;> norm_num

theorem runUpdates_progress_eq (us : List (Nat × ℚ)) :
    ∀ p : TransferProgress,
      p.progress = progressFormula p.total_size p.current_size →
      timesIncreasing p.last_update_time us →
      (runUpdates p us).progress
        = progressFormula (runUpdates p us).total_size (runUpdates p us).current_size := by
  induction us with
  | nil => intro p hp _; simpa [runUpdates] using hp
  | cons u rest ih =>
    intro p hp ht
    obtain ⟨hlt, hrest⟩ := ht
    obtain ⟨h1, h2, h3, h4⟩ := TransferProgress.update_advance p u.1 u.2 hlt
    exact ih (p.update u.1 u.2) (by rw [h1, h2, h4]) (by rw [h3]; exact hrest)

/-- One `update` either recomputes the percentage from the new byte count
(when `time_diff > 0`) or leaves the stored percentage untouched (when the
clock did not advance, service.py:691). -/
theorem TransferProgress.update_progress_cases (p : TransferProgress) (b : Nat)
    (now : ℚ) :
    (p.update b now).progress = progressFormula p.total_size b
    ∨ (p.update b now).progress = p.progress := by
  by_cases hd : p.last_update_time < now
  · left
    unfold TransferProgress.update
    rw [if_pos (by simpa using sub_pos.mpr hd)]
    simp [progressFormula]
  · right
    unfold TransferProgress.update
    rw [if_neg (by simpa [sub_pos] using hd)]

/-- The stored percentage stays in `[0, 100]` across any update sequence —
no assumption on the wall-clock instants at all. -/
theorem runUpdates_progress_bounds (us : List (Nat × ℚ)) :
    ∀ p : TransferProgress, 0 ≤ p.progress → p.progress ≤ 100 →
      0 ≤ (runUpdates p us).progress ∧ (runUpdates p us).progress ≤ 100 := by
  induction us with
  | nil => intro p h0 h1; exact ⟨h0, h1⟩
  | cons u rest ih =>
    intro p h0 h1
    simp only [runUpdates]
    rcases TransferProgress.update_progress_cases p u.1 u.2 with hc | hc
    · exact ih _ (by rw [hc]; exact progressFormula_nonneg _ _)
        (by rw [hc]; exact progressFormula_le_hundred _ _)
    · exact ih _ (by rw [hc]; exact h0) (by rw [hc]; exact h1)

/-- C5 amended: for every update sequence whatsoever, each observed
snapshot's stored percentage lies in `[0, 100]`; when additionally the
updates' wall-clock instants strictly increase, the percentage equals
`min(100, transferred/total*100)` for a positive total and `0` for a zero
total.  The other parts of the original claim fail at the counterexample
below: the stored byte count is not clamped, so transferred can exceed
total, and an update at a repeated timestamp (`time_diff == 0`,
service.py:691) overwrites the byte count but leaves the percentage
stale, so the percent-formula equality does not hold for every
snapshot. -/
theorem transfer_progress_percent_invariant (total_size : Nat) (operation : String)
    (t0 : ℚ) (us : List (Nat × ℚ)) :
    0 ≤ (runUpdates (TransferProgress.init total_size operation t0) us).progress
    ∧ (runUpdates (TransferProgress.init total_size operation t0) us).progress ≤ 100
    ∧ (timesIncreasing t0 us →
        (runUpdates (TransferProgress.init total_size operation t0) us).progress
          = progressFormula
              (runUpdates (TransferProgress.init total_size operation t0) us).total_size
              (runUpdates (TransferProgress.init total_size operation t0) us).current_size) := by
  obtain ⟨hb0, hb1⟩ := runUpdates_progress_bounds us
    (TransferProgress.init total_size operation t0)
    (by simp [TransferProgress.init]) (by simp [TransferProgress.init])
  refine ⟨hb0, hb1, fun h => ?_⟩
  have base : (TransferProgress.init total_size operation t0).progress
      = progressFormula (TransferProgress.init total_size operation t0).total_size
          (TransferProgress.init total_size operation t0).current_size := by
    simp [TransferProgress.init, progressFormula_zero]
  exact runUpdates_progress_eq us (TransferProgress.init total_size operation t0)
    base (by simpa [TransferProgress.init] using h)

/-- Witness for C5 at the concrete run `total = 100`, one update to 50
bytes at time 1: the bounds hold, and since the instants strictly
increase, the formula equality holds as well. -/
theorem transfer_progress_percent_invariant_witness :
    timesIncreasing 0 [(50, 1)]
    ∧ 0 ≤ (runUpdates (TransferProgress.init 100 "upload" 0) [(50, 1)]).progress
    ∧ (runUpdates (TransferProgress.init 100 "upload" 0) [(50, 1)]).progress ≤ 100
    ∧ (runUpdates (TransferProgress.init 100 "upload" 0) [(50, 1)]).progress
        = progressFormula
            (runUpdates (TransferProgress.init 100 "upload" 0) [(50, 1)]).total_size
            (runUpdates (TransferProgress.init 100 "upload" 0) [(50, 1)]).current_size :=
  ⟨⟨by norm_num, trivial⟩,
   (transfer_progress_percent_invariant 100 "upload" 0 [(50, 1)]).1,
   (transfer_progress_percent_invariant 100 "upload" 0 [(50, 1)]).2.1,
   (transfer_progress_percent_invariant 100 "upload" 0 [(50, 1)]).2.2
     ⟨by norm_num, trivial⟩⟩

/-- C5 counterexample, refuting both remaining parts of the original
claim.  First, `transferred ≤ total` fails: updating a transfer of
declared total 100 with 200 transferred bytes (e.g. a re-delivered chunk
appended again, measured via the staging file's on-disk size) yields a
snapshot with `current_size = 200 > 100 = total_size`.  Second, the
percent-formula equality fails on its own: two updates carrying the same
`time.time()` reading (realistic under coarse clock resolution) leave
`time_diff == 0`, so the second update (to 80 bytes) overwrites
`current_size` but keeps the percentage computed for the first (50%),
and the snapshot's percentage differs from
`min(100, transferred/total*100) = 80`. -/
theorem progress_snapshot_claim_cex :
    (((TransferProgress.init 100 "upload" 0).update 200 1).total_size = 100
      ∧ ((TransferProgress.init 100 "upload" 0).update 200 1).current_size = 200)
    ∧ ((((TransferProgress.init 100 "upload" 0).update 50 1).update 80 1).total_size = 100
      ∧ (((TransferProgress.init 100 "upload" 0).update 50 1).update 80 1).current_size = 80
      ∧ (((TransferProgress.init 100 "upload" 0).update 50 1).update 80 1).progress = 50
      ∧ (((TransferProgress.init 100 "upload" 0).update 50 1).update 80 1).progress
          ≠ progressFormula
              (((TransferProgress.init 100 "upload" 0).update 50 1).update 80 1).total_size
              (((TransferProgress.init 100 "upload" 0).update 50 1).update 80 1).current_size) := by
  norm_num [TransferProgress.update, TransferProgress.init, progressFormula, min_def]

/-!  ## C6 — paste/newline semantics of `ssh_input` -/

/-- C6: on an active session owned by the caller, pasted input is written
verbatim with a newline appended exactly when it is not the last line, and
non-pasted input is written verbatim with nothing appended
(service.py:541-550). -/
theorem input_paste_newline_semantics (st : ServerState)
    (client_id session_id input_data : String) (isPasted isLastLine : Bool)
    (s : SSHSession) (hs : alookup st.ssh_sessions session_id = some s)
    (ha : s.active = true) (ho : s.client_id = client_id) :
    handle_ssh_input st client_id session_id input_data isPasted isLastLine
      = .sent (if isPasted then
                 (if isLastLine then [input_data] else [input_data, "\n"])
               else [input_data]) := by
  unfold handle_ssh_input
  rw [hs]
  cases isPasted <;> cases isLastLine <;> simp [ha, ho]

/-- Witness for C6 on `demoState`: a two-line paste writes the data then a
newline; the final line and plain keystrokes write the data alone. -/
theorem input_paste_newline_semantics_witness :
    alookup demoState.ssh_sessions "s" = some demoSession
    ∧ demoSession.active = true
    ∧ demoSession.client_id = "c1"
    ∧ handle_ssh_input demoState "c1" "s" "ls" true false = .sent ["ls", "\n"]
    ∧ handle_ssh_input demoState "c1" "s" "ls" true true = .sent ["ls"]
    ∧ handle_ssh_input demoState "c1" "s" "ls" false false = .sent ["ls"] :=
  ⟨rfl, rfl, rfl,
   input_paste_newline_semantics demoState "c1" "s" "ls" true false demoSession rfl rfl rfl,
   input_paste_newline_semantics demoState "c1" "s" "ls" true true demoSession rfl rfl rfl,
   input_paste_newline_semantics demoState "c1" "s" "ls" false false demoSession rfl rfl rfl⟩

/-!  ## C7 — resize clamping and unknown-session no-op -/

/-- C7: a resize on a known session applies the pseudo-terminal size
`(max 80 (min cols 500), max 24 (min rows 200))` and updates the remote
COLUMNS/LINES environment to the clamped values; `(10000, 10000)` in
particular applies `(500, 200)`; a resize on an unknown session returns
silently (`none`: no effect and no error emission). -/
theorem resize_clamps_and_unknown_noop (caller : String) (st : ServerState)
    (session_id : String) (cols rows : Int) :
    (session_id ≠ "" → ∀ s, alookup st.ssh_sessions session_id = some s →
      handle_resize caller st session_id cols rows
        = some ⟨(max 80 (min cols 500), max 24 (min rows 200)),
                [("COLUMNS", toString (max 80 (min cols 500))),
                 ("LINES", toString (max 24 (min rows 200)))]⟩)
    ∧ (alookup st.ssh_sessions session_id = none →
        handle_resize caller st session_id cols rows = none)
    ∧ (session_id ≠ "" → ∀ s, alookup st.ssh_sessions session_id = some s →
        (handle_resize caller st session_id 10000 10000).map ResizeEffect.applied
          = some (500, 200)) := by
  refine ⟨?_, ?_, ?_⟩
  · intro hne s hs
    unfold handle_resize
    rw [if_neg hne, hs]
  · intro hnone
    unfold handle_resize
    split
    · rfl
    · rw [hnone]
  · intro hne s hs
    unfold handle_resize
    rw [if_neg hne, hs]
    rfl

/-- Witness for C7: resizing `demoState`'s session `"s"` with the
out-of-range request `(10000, 10000)` applies `(500, 200)` and sets
COLUMNS/LINES accordingly; an unknown id is a silent no-op. -/
theorem resize_clamps_and_unknown_noop_witness :
    handle_resize "anyone" demoState "s" 10000 10000
      = some ⟨(500, 200), [("COLUMNS", "500"), ("LINES", "200")]⟩
    ∧ handle_resize "anyone" demoState "missing" 10000 10000 = none :=
  ⟨by
     have h := (resize_clamps_and_unknown_noop "anyone" demoState "s" 10000 10000).1
       (by decide) demoSession rfl
     simpa using h,
   (resize_clamps_and_unknown_noop "anyone" demoState "missing" 10000 10000).2.1 rfl⟩

/-- Closing an unregistered session id is a no-op (service.py:591-592). -/
theorem handle_ssh_close_absent (st : ServerState) (c sid : String)
    (h : alookup st.ssh_sessions sid = none) :
    handle_ssh_close st c sid = (st, []) := by
  simp [handle_ssh_close, h]

/-- Closing a session owned by a different client is a no-op with no
emission (service.py:589-590). -/
theorem handle_ssh_close_nonowner (st : ServerState) (c sid : String) (s : SSHSession)
    (hs : alookup st.ssh_sessions sid = some s) (hno : s.client_id ≠ c) :
    handle_ssh_close st c sid = (st, []) := by
  simp [handle_ssh_close, hs, hno]

/-- The owner path of `close_ssh` (service.py:571-588), written out. -/
theorem handle_ssh_close_owner (st : ServerState) (c sid : String) (s : SSHSession)
    (hs : alookup st.ssh_sessions sid = some s) (ho : s.client_id = c) :
    handle_ssh_close st c sid
      = ({ st with
            ssh_sessions := aerase st.ssh_sessions sid,
            client_sessions :=
              match alookup st.client_sessions c with
              | some l => ainsert st.client_sessions c (l.filter (· ≠ sid))
              | none => st.client_sessions,
            closed_chans := st.closed_chans ++ [s.chan],
            closed_conns := st.closed_conns ++ [s.conn] },
          [.sshClosed sid "Connection closed"]) := by
  simp [handle_ssh_close, hs, ho]

/-!  ## C10 — resize has no ownership check, unlike input and close -/

/-- C10: `handle_resize` never reads the requesting client, so its effect
is identical for every pair of callers; whereas on the very same state a
non-owner's `ssh_input` is rejected with an ownership error and no channel
write, and a non-owner's `close_ssh` changes nothing. -/
theorem resize_no_ownership_check (c1 c2 : String) (st : ServerState)
    (session_id input_data : String) (cols rows : Int) (p l : Bool)
    (s : SSHSession) (hs : alookup st.ssh_sessions session_id = some s)
    (ha : s.active = true) (hne : s.client_id ≠ c2) :
    handle_resize c1 st session_id cols rows = handle_resize c2 st session_id cols rows
    ∧ handle_ssh_input st c2 session_id input_data p l
        = .error "Session belongs to another client"
    ∧ handle_ssh_close st c2 session_id = (st, []) := by
  refine ⟨rfl, ?_, handle_ssh_close_nonowner st c2 session_id s hs hne⟩
  simp [handle_ssh_input, hs, ha, hne]

/-- Witness for C10 on `demoState`: the stranger `"c2"` can resize session
`"s"` exactly like its owner, while the same stranger's input and close
requests are refused. -/
theorem resize_no_ownership_check_witness :
    handle_resize "c1" demoState "s" 300 100 = handle_resize "c2" demoState "s" 300 100
    ∧ handle_ssh_input demoState "c2" "s" "rm -rf /" false false
        = .error "Session belongs to another client"
    ∧ handle_ssh_close demoState "c2" "s" = (demoState, []) :=
  resize_no_ownership_check "c1" "c2" demoState "s" "rm -rf /" 300 100 false false
    demoSession rfl rfl (by decide)

/-!  ## C1 — `open_ssh` and pre-existing session ids -/

/-- C1 counterexample.  The claim says an `open_ssh` for an id already in
the registry is rejected and the existing entry is left unchanged; but
`handle_ssh_connection` performs no duplicate check: on `demoState`, where
`"s"` is owned by `"c1"` with handles (1,2), an open by `"c2"` that
connects successfully silently replaces the entry with `"c2"`'s session
(handles (3,4)) and emits a connected confirmation, not a rejection. -/
theorem open_overwrites_existing_session_cex :
    alookup demoState.ssh_sessions "s" = some ⟨"c1", true, 1, 2⟩
    ∧ alookup (handle_ssh_connection demoState "c2" "s" (.ok 3 4)).state.ssh_sessions "s"
        = some ⟨"c2", true, 3, 4⟩
    ∧ (handle_ssh_connection demoState "c2" "s" (.ok 3 4)).events
        = [Event.sshConnected "s"] := by
  refine ⟨rfl, ?_, rfl⟩
  · rfl

/-- C1 amended: `open` performs no duplicate-id check — whether or not a
session with the same id already exists, a successful connect installs the
new session in the registry (overwriting any existing entry), records it
under the requesting client, spawns the output-reading thread, and emits
the connected confirmation. -/
theorem open_success_registers_and_confirms (st : ServerState)
    (client_id session_id : String) (conn chan : Nat) :
    alookup (handle_ssh_connection st client_id session_id (.ok conn chan)).state.ssh_sessions
        session_id = some ⟨client_id, true, conn, chan⟩
    ∧ (handle_ssh_connection st client_id session_id (.ok conn chan)).spawned = [session_id]
    ∧ (handle_ssh_connection st client_id session_id (.ok conn chan)).events
        = [Event.sshConnected session_id]
    ∧ session_id ∈ (alookup (handle_ssh_connection st client_id session_id
        (.ok conn chan)).state.client_sessions client_id).getD [] := by
  refine ⟨?_, rfl, rfl, ?_⟩
  · simp [handle_ssh_connection, alookup_ainsert]
  · simp only [handle_ssh_connection, alookup_ainsert, Option.getD_some]
    split
    · assumption
    · exact List.mem_append_right _ (List.mem_singleton.mpr rfl)

/-!  ## C3 — close requires ownership; non-owner gets silence -/

/-- C3 counterexample.  The claim says a non-owner's close attempt leaves
the session untouched AND delivers a not-owner error to the caller; on
`demoState` (session `"s"` owned by `"c1"`) a close by `"c2"` indeed
changes nothing, but the emission list is empty — the ownership mismatch
is only printed to the server log (service.py:589-590), so the caller
receives no error at all. -/
theorem close_nonowner_silent_cex :
    handle_ssh_close demoState "c2" "s" = (demoState, []) := by
  rfl

/-- C3 amended: closing a session owned by a different client performs no
state change (the session stays registered, its channel and connection are
not closed) and emits nothing — the mismatch is only logged.  Of two
different clients racing to close the same session (serialized by the
registry lock), exactly the owner's attempt succeeds — removing the entry,
closing the channel, emitting one closed notification — and the other's
attempt is a silent no-op in either interleaving. -/
theorem close_requires_ownership (st : ServerState) (session_id c1 c2 : String)
    (s : SSHSession) (hs : alookup st.ssh_sessions session_id = some s)
    (ho : s.client_id = c1) (hne : c1 ≠ c2) :
    handle_ssh_close st c2 session_id = (st, [])
    ∧ alookup (handle_ssh_close st c1 session_id).1.ssh_sessions session_id = none
    ∧ (handle_ssh_close st c1 session_id).2
        = [Event.sshClosed session_id "Connection closed"]
    ∧ (handle_ssh_close st c1 session_id).1.closed_chans = st.closed_chans ++ [s.chan]
    ∧ (handle_ssh_close st c1 session_id).1.closed_conns = st.closed_conns ++ [s.conn]
    ∧ handle_ssh_close (handle_ssh_close st c1 session_id).1 c2 session_id
        = ((handle_ssh_close st c1 session_id).1, []) := by
  have hno2 : s.client_id ≠ c2 := by rw [ho]; exact hne
  have howner := handle_ssh_close_owner st c1 session_id s hs ho
  have hrm : alookup (handle_ssh_close st c1 session_id).1.ssh_sessions session_id
      = none := by
    rw [howner]; exact alookup_aerase _ _
  refine ⟨handle_ssh_close_nonowner st c2 session_id s hs hno2, hrm, ?_, ?_, ?_,
    handle_ssh_close_absent _ c2 _ hrm⟩
  · rw [howner]
  · rw [howner]
  · rw [howner]

/-- Witness for C3 on `demoState`: the stranger `"c2"` closing `"s"` is a
silent no-op both before and after the owner `"c1"` closes it, and the
owner's close removes the session, closes handles (2, 1), and emits one
closed notification. -/
theorem close_requires_ownership_witness :
    handle_ssh_close demoState "c2" "s" = (demoState, [])
    ∧ alookup (handle_ssh_close demoState "c1" "s").1.ssh_sessions "s" = none
    ∧ (handle_ssh_close demoState "c1" "s").2 = [Event.sshClosed "s" "Connection closed"]
    ∧ (handle_ssh_close demoState "c1" "s").1.closed_chans = [] ++ [2]
    ∧ (handle_ssh_close demoState "c1" "s").1.closed_conns = [] ++ [1]
    ∧ handle_ssh_close (handle_ssh_close demoState "c1" "s").1 "c2" "s"
        = ((handle_ssh_close demoState "c1" "s").1, []) :=
  close_requires_ownership demoState "s" "c1" "c2" demoSession rfl rfl (by decide)

/-!  ## C2 — close events per session -/

theorem countClosed_append (sid : String) (a b : List Event) :
    countClosed sid (a ++ b) = countClosed sid a + countClosed sid b :=
  List.countP_append _ _ _

theorem countClosed_cons_output (sid s : String) (bts : List Nat) (evs : List Event) :
    countClosed sid (Event.sshOutput s bts :: evs) = countClosed sid evs := by
  simp [countClosed, List.countP_cons]

theorem countClosed_cons_keepalive (sid s : String) (evs : List Event) :
    countClosed sid (Event.keepalive s :: evs) = countClosed sid evs := by
  simp [countClosed, List.countP_cons]

/-- The `while` loop of `read_output` itself emits no `ssh_closed`: all
its emissions are `ssh_output` data events and keepalives. -/
theorem pump_loop_no_close (sid : String) (envs : List PumpIterEnv) :
    ∀ (la : ℚ) (buf : List Nat) (evs : List Event),
      pump_loop sid la buf envs = some evs → countClosed sid evs = 0 := by
  induction envs with
  | nil =>
    intro la buf evs h
    simp [pump_loop] at h
  | cons env rest ih =>
    intro la buf evs h
    unfold pump_loop at h
    split at h
    · cases h
      rfl
    · split at h
      · cases h
        rfl
      · split at h
        · -- recv branch
          split at h
          · split at h
            · cases h
              rfl
            · exact ih _ _ _ h
          · split at h
            · cases h
              simp [countClosed, List.countP_cons]
            · rcases hmap : pump_loop sid _ [] rest with _ | evs'
              · rw [hmap] at h
                simp at h
              · rw [hmap] at h
                simp only [Option.map_some] at h
                cases h
                rw [countClosed_cons_output]
                exact ih _ _ _ hmap
        · -- noData branch
          split at h
          · split at h
            · split at h
              · cases h
                rfl
              · rcases hmap : pump_loop sid _ buf rest with _ | evs'
                · rw [hmap] at h
                  simp at h
                · rw [hmap] at h
                  simp only [Option.map_some] at h
                  cases h
                  rw [countClosed_cons_keepalive]
                  exact ih _ _ _ hmap
            · cases h
              rfl
          · split at h
            · cases h
              rfl
            · exact ih _ _ _ h
        · -- recvError branch
          cases h
          rfl

/-- C2 amended: every *terminated run of the OutputPump* emits exactly one
close event for its session — so remote-initiated closures, keepalive
failures, and read errors all produce exactly one `ssh_closed`.  The
original system-wide claim fails for client-initiated closure, because
`close_ssh` emits its own `ssh_closed` in addition to the pump's (see the
counterexample below). -/
theorem pump_emits_close_exactly_once (sid : String) (la : ℚ)
    (envs : List PumpIterEnv) (evs : List Event)
    (h : read_output_events sid la envs = some evs) :
    countClosed sid evs = 1 := by
  unfold read_output_events at h
  rcases hp : pump_loop sid la [] envs with _ | evs0 <;> rw [hp] at h
  · simp at h
  · simp only [Option.map_some'] at h
    cases h
    rw [countClosed_append, pump_loop_no_close sid envs la [] evs0 hp]
    simp [countClosed, List.countP_cons]

/-- Witness for C2's amended theorem: a pump whose first iteration finds
the session unregistered terminates and emits exactly the one close
event. -/
theorem pump_emits_close_exactly_once_witness :
    read_output_events "s" 0 [⟨⟨[], [], [], []⟩, PumpStep.recvError, false⟩]
      = some [Event.sshClosed "s" "Connection closed"]
    ∧ countClosed "s" [Event.sshClosed "s" "Connection closed"] = 1 :=
  ⟨rfl, pump_emits_close_exactly_once "s" 0
    [⟨⟨[], [], [], []⟩, PumpStep.recvError, false⟩]
    [Event.sshClosed "s" "Connection closed"] rfl⟩

/-- C2 counterexample.  A client-initiated closure of `demoState`'s session
`"s"` emits TWO close events, not exactly one: `close_ssh` removes the
session and emits `ssh_closed` itself (service.py:584-587); the pump's
next iteration then finds the session gone, exits its loop, and its
`finally` block emits a second `ssh_closed` (service.py:427-430). -/
theorem client_close_two_close_events_cex :
    countClosed "s"
      ((handle_ssh_close demoState "c1" "s").2
        ++ (read_output_events "s" 0
              [⟨(handle_ssh_close demoState "c1" "s").1,
                PumpStep.noData 1 true, false⟩]).getD [])
      = 2 := by
  rfl
